import Mathlib

/-!
Verification of the corteza-js hydration / resolution core (c3-js).

The development shallowly embeds the TypeScript sources:
  src/compose/types/namespace.ts     (Namespace.apply)
  src/compose/types/module-field.ts  (ModuleField.apply)
  src/compose/types/page.ts          (Page.apply, Page.validate)
  src/corredor/helpers/messaging.ts  (MessagingHelper.resolveChannel,
                                      findChannelByID, directChannel, saveChannel)

Pure class methods become Lean functions; raw JSON input objects become
structures of Option-typed fields (none = the field is absent / undefined);
exceptions become Except; the remote API client becomes an explicit
environment of Except-returning functions, and remote interaction is made
observable through an explicit trace of remote calls.

Helpers imported by the sources from modules that are not part of the
corpus (cast.ts: Apply, CortezaID, ISO8601Date, NoID, IsCortezaID;
guards.ts: IsOf, AreObjectsOf; shared.ts: extractID, isFresh; the Channel
class and the PageBlock base with its registry) are modelled from the
specification; each such definition carries a doc comment saying so.
-/

namespace Corteza

/-! ## Cast primitives (modelled from the spec, section 4.1 of spec.md) -/

/-- Modelled from the spec: `NoID`, the identifier sentinel denoting the
canonical "unsaved" value (cast.ts is not part of the corpus). -/
def NoID : String := "0"

/-- Modelled from the spec: `IsCortezaID`, the identifier-shape heuristic
used by the resolver and by the identifier coercer (cast.ts is not part of
the corpus).  Modelled as: a nonempty string of decimal digits. -/
def IsCortezaID (s : String) : Bool := s.length > 0 && s.toList.all Char.isDigit

/-- Modelled from the spec: the `CortezaID` coercer validates an identifier
representation and maps falsy or invalid input to the sentinel `NoID`.
The second argument is the previous field value, which it ignores. -/
def CortezaID (v : String) (_old : String) : String :=
  if IsCortezaID v then v else NoID

/-- Modelled from the spec: the `String` coercer is an identity cast on a
value that is already a string.  It ignores the previous field value. -/
def coerceString (v : String) (_old : String) : String := v

/-- Modelled from the spec: the `Number` coercer is an identity cast on a
value that is already a number.  It ignores the previous field value. -/
def coerceNumber (v : Int) (_old : Int) : Int := v

/-- Modelled from the spec: the `Boolean` coercer is an identity cast on a
value that is already a boolean.  It ignores the previous field value. -/
def coerceBoolean (v : Bool) (_old : Bool) : Bool := v

/-- A raw date value offered to the `ISO8601Date` coercer: a Date object,
a numeric timestamp, or an ISO-8601 string. -/
inductive RawDate where
  | dateVal (millis : Int)
  | num (millis : Int)
  | str (s : String)
deriving DecidableEq

/-- Stand-in for ISO-8601 string parsing.  The real parser lives in
cast.ts, which is not part of the corpus; all that the verified claims
need is that parsing is a deterministic total function of the string, so
the string is folded into an integer code. -/
def parseISO8601 (s : String) : Int :=
  s.toList.foldl (fun a c => a * 256 + (Int.ofNat c.toNat)) 0

/-- Modelled from the spec: the `ISO8601Date` coercer accepts a Date, a
numeric timestamp, or an ISO-8601 string, and returns undefined (`none`)
for falsy input rather than an invalid date.  It ignores the previous
field value. -/
def ISO8601Date (v : RawDate) (_old : Option Int) : Option Int :=
  match v with
  | .dateVal m => some m
  | .num m => if m = 0 then none else some m
  | .str s => if s = "" then none else some (parseISO8601 s)

/-! ## The Apply engine (modelled from the spec, section 4.1) -/

/-- Modelled from the spec: the per-field action of
`Apply(target, source, coerce, ...fieldNames)` from cast.ts (not part of
the corpus).  If the source field is present (not undefined), the target
field becomes `coerce source target`; otherwise the target field is left
unchanged.  A call `Apply(this, i, coerce, f1, f2)` in the sources is
embedded as one `applyField` per named field. -/
def applyField (coerce : α → β → β) (src : Option α) (tgt : β) : β :=
  match src with
  | some v => coerce v tgt
  | none => tgt

/-! ## Structural guards (modelled from the spec, section 4.2) -/

/-- Modelled from the spec: `IsOf(value, propertyName)` from guards.ts
(not part of the corpus) is true iff the value is a non-null object with
an own, defined property of that name.  In this typed embedding a raw
object is a structure of Option fields and a property name is the
corresponding projection, so the guard tests that the projection is
present. -/
def IsOf (prop : α → Option β) (v : α) : Bool := (prop v).isSome

/-- Modelled from the spec: `AreObjectsOf(array, propertyName)` from
guards.ts (not part of the corpus) is true iff every element of the array
independently satisfies `IsOf`. -/
def AreObjectsOf (prop : α → Option β) (l : List α) : Bool := l.all (IsOf prop)

/-! ## Namespace (src/compose/types/namespace.ts) -/

/-- Raw input shape for `Namespace.apply` (interface RawNamespace).
`meta` is modelled as a JS object: an association list of key/value
pairs, so that the spread copy in the source is value identity. -/
structure RawNamespace where
  namespaceID : Option String := none
  name : Option String := none
  slug : Option String := none
  enabled : Option Bool := none
  meta : Option (List (String × String)) := none
  createdAt : Option RawDate := none
  updatedAt : Option RawDate := none
  deletedAt : Option RawDate := none
  canCreateChart : Option Bool := none
  canCreateModule : Option Bool := none
  canCreatePage : Option Bool := none
  canDeleteNamespace : Option Bool := none
  canUpdateNamespace : Option Bool := none
  canManageNamespace : Option Bool := none
  canGrant : Option Bool := none
deriving DecidableEq

/-- The Namespace entity (class Namespace). -/
structure Namespace where
  namespaceID : String := NoID
  name : String := ""
  slug : String := ""
  enabled : Bool := false
  meta : List (String × String) := []
  createdAt : Option Int := none
  updatedAt : Option Int := none
  deletedAt : Option Int := none
  canCreateChart : Bool := false
  canCreateModule : Bool := false
  canCreatePage : Bool := false
  canDeleteNamespace : Bool := false
  canUpdateNamespace : Bool := false
  canManageNamespace : Bool := false
  canGrant : Bool := false
deriving DecidableEq

/-- `Namespace.apply` (namespace.ts lines 62-84).  `none` input embeds the
`if (!n) return` early exit.  The `meta` branch embeds
`if (IsOf(n, 'meta')) this.meta = ...spread of n.meta`. -/
def Namespace.applyRaw (e : Namespace) (i : Option RawNamespace) : Namespace :=
  match i with
  | none => e
  | some n =>
    { namespaceID := applyField CortezaID n.namespaceID e.namespaceID
      name := applyField coerceString n.name e.name
      slug := applyField coerceString n.slug e.slug
      enabled := applyField coerceBoolean n.enabled e.enabled
      meta := if IsOf RawNamespace.meta n then n.meta.getD e.meta else e.meta
      createdAt := applyField ISO8601Date n.createdAt e.createdAt
      updatedAt := applyField ISO8601Date n.updatedAt e.updatedAt
      deletedAt := applyField ISO8601Date n.deletedAt e.deletedAt
      canCreateChart := applyField coerceBoolean n.canCreateChart e.canCreateChart
      canCreateModule := applyField coerceBoolean n.canCreateModule e.canCreateModule
      canCreatePage := applyField coerceBoolean n.canCreatePage e.canCreatePage
      canDeleteNamespace := applyField coerceBoolean n.canDeleteNamespace e.canDeleteNamespace
      canUpdateNamespace := applyField coerceBoolean n.canUpdateNamespace e.canUpdateNamespace
      canManageNamespace := applyField coerceBoolean n.canManageNamespace e.canManageNamespace
      canGrant := applyField coerceBoolean n.canGrant e.canGrant }

/-! ## ModuleField (src/compose/types/module-field.ts) -/

/-- The type of `defaultValue`: a string or a string array. -/
inductive StrOrStrings where
  | one (s : String)
  | many (l : List String)
deriving DecidableEq

/-- JS truthiness of a `defaultValue`: the empty string is falsy, every
other string and every array (even empty) is truthy. -/
def StrOrStrings.truthy : StrOrStrings → Bool
  | .one s => !(s == "")
  | .many _ => true

/-- Raw input shape for `ModuleField.apply` (interface RawModuleField).
`options` is modelled as a JS object: an association list. -/
structure RawModuleField where
  fieldID : Option String := none
  name : Option String := none
  kind : Option String := none
  label : Option String := none
  helpText : Option String := none
  defaultValue : Option StrOrStrings := none
  maxLength : Option Int := none
  isRequired : Option Bool := none
  isPrivate : Option Bool := none
  isMulti : Option Bool := none
  isSystem : Option Bool := none
  canUpdateRecordValue : Option Bool := none
  canReadRecordValue : Option Bool := none
  options : Option (List (String × String)) := none
deriving DecidableEq

/-- The ModuleField entity (class ModuleField). -/
structure ModuleField where
  fieldID : String := NoID
  name : String := ""
  kind : String := ""
  label : String := ""
  defaultValue : Option StrOrStrings := none
  maxLength : Int := 0
  isRequired : Bool := false
  isPrivate : Bool := false
  isMulti : Bool := false
  isSystem : Bool := false
  options : List (String × String) := []
  canUpdateRecordValue : Bool := false
  canReadRecordValue : Bool := false
deriving DecidableEq

/-- `ModuleField.apply` (module-field.ts lines 46-72), in source order:
the four Apply groups, the truthiness-guarded `defaultValue` assignment,
the `isSystem` branch that forces both record-value permissions to true,
and the two `IsOf`-guarded assignments of `kind` and `options`. -/
def ModuleField.applyRaw (e : ModuleField) (i : Option RawModuleField) : ModuleField :=
  match i with
  | none => e
  | some f =>
    { fieldID := applyField CortezaID f.fieldID e.fieldID
      name := applyField coerceString f.name e.name
      kind :=
        if IsOf RawModuleField.kind f
        then f.kind.getD (applyField coerceString f.kind e.kind)
        else applyField coerceString f.kind e.kind
      label := applyField coerceString f.label e.label
      defaultValue :=
        match f.defaultValue with
        | some v => if v.truthy then some v else e.defaultValue
        | none => e.defaultValue
      maxLength := applyField coerceNumber f.maxLength e.maxLength
      isRequired := applyField coerceBoolean f.isRequired e.isRequired
      isPrivate := applyField coerceBoolean f.isPrivate e.isPrivate
      isMulti := applyField coerceBoolean f.isMulti e.isMulti
      isSystem := applyField coerceBoolean f.isSystem e.isSystem
      options :=
        if IsOf RawModuleField.options f
        then f.options.getD e.options
        else e.options
      canUpdateRecordValue :=
        if applyField coerceBoolean f.isSystem e.isSystem then true
        else applyField coerceBoolean f.canUpdateRecordValue e.canUpdateRecordValue
      canReadRecordValue :=
        if applyField coerceBoolean f.isSystem e.isSystem then true
        else applyField coerceBoolean f.canReadRecordValue e.canReadRecordValue }

/-! ## Page blocks and the variant registry
(src/compose/types/page-block/ -- the base class and the registry are not
part of the corpus; iframe.ts shows the variant shape: a kind tag plus
options, registered through Registry.set). -/

/-- Raw input shape of one page-block element of `i.blocks`.  The two
properties the guards in page.ts test for are `kind` and `xywh`; all
other block payload is bundled as an association list. -/
structure RawBlock where
  kind : Option String := none
  xywh : Option (List Int) := none
  payload : List (String × String) := []
deriving DecidableEq

/-- Modelled from the spec: a constructed page block.  The PageBlock base
class is not part of the corpus; the spec describes a block as a variant
tagged by its kind, with geometry and variant options, whose `validate()`
returns the block's own list of validation messages.  The messages are
stored in the structure so that `validate` is a deterministic projection. -/
structure PageBlock where
  kind : String := ""
  xywh : List Int := []
  options : List (String × String) := []
  validationMsgs : List String := []
deriving DecidableEq

/-- Modelled from the spec: `PageBlock.validate()` returns the block's own
validation messages. -/
def PageBlock.validate (b : PageBlock) : List String := b.validationMsgs

/-- The variant registry: a mapping from a discriminant string to a
constructor taking the raw object.  The process-wide mutable map of the
source is embedded as an explicit parameter threaded through hydration. -/
def BlockRegistry : Type := String → Option (RawBlock → PageBlock)

/-- Modelled from the spec, section 4.3: `PageBlockMaker` reads the kind
discriminant of a raw object (which must already satisfy the guard),
looks the constructor up in the registry, and invokes it; an unregistered
discriminant fails with a distinguishable error. -/
def PageBlockMaker (reg : BlockRegistry) (b : RawBlock) : Except String PageBlock :=
  match b.kind with
  | none => Except.error "invalid page block"
  | some k =>
    match reg k with
    | some ctor => Except.ok (ctor b)
    | none => Except.error ("unknown page block kind " ++ k)

/-! ## Page (src/compose/types/page.ts)

The Page class owns recursive same-type children, so the entity and its
raw shape are inductives; the TS class fields are flat, but Lean
structures cannot be recursive, so the non-recursive fields are grouped
in a core structure and the children stand beside it. -/

/-- The non-recursive fields of a raw page input (interface PartialPage
minus `children`). -/
structure RawPageCore where
  pageID : Option String := none
  selfID : Option String := none
  moduleID : Option String := none
  namespaceID : Option String := none
  title : Option String := none
  handle : Option String := none
  description : Option String := none
  weight : Option Int := none
  visible : Option Bool := none
  blocks : Option (List RawBlock) := none
  createdAt : Option RawDate := none
  updatedAt : Option RawDate := none
  deletedAt : Option RawDate := none
  canUpdatePage : Option Bool := none
  canDeletePage : Option Bool := none
  canGrant : Option Bool := none
deriving DecidableEq

/-- A raw page input (interface PartialPage): the scalar core plus the
optional array of same-type raw children. -/
inductive RawPage where
  | mk (core : RawPageCore) (children : Option (List RawPage))

/-- Projection to the non-recursive fields. -/
def RawPage.core : RawPage → RawPageCore
  | .mk c _ => c

/-- Projection to the raw children array. -/
def RawPage.children : RawPage → Option (List RawPage)
  | .mk _ k => k

/-- The non-recursive fields of the Page entity (class Page minus
`children`). -/
structure PageCore where
  pageID : String := NoID
  selfID : String := NoID
  moduleID : String := NoID
  namespaceID : String := NoID
  title : String := ""
  handle : String := ""
  description : String := ""
  weight : Int := 0
  visible : Bool := false
  blocks : List PageBlock := []
  createdAt : Option Int := none
  updatedAt : Option Int := none
  deletedAt : Option Int := none
  canUpdatePage : Bool := false
  canDeletePage : Bool := false
  canGrant : Bool := false
deriving DecidableEq

/-- The Page entity (class Page): scalar core plus the optional owned
children (`children?: Array of Page`, default undefined). -/
inductive Page where
  | mk (core : PageCore) (children : Option (List Page))

/-- Projection to the non-recursive fields. -/
def Page.core : Page → PageCore
  | .mk c _ => c

/-- Projection to the owned children. -/
def Page.children : Page → Option (List Page)
  | .mk _ k => k

/-- A freshly constructed Page before `apply` runs (all class-field
defaults of page.ts). -/
def defaultPage : Page := Page.mk {} none

/-- The blocks branch of `Page.apply` (page.ts lines 56-61): when
`i.blocks` is present the collection is first reset to empty, and is
rebuilt through the registry only when every raw element passes both the
`kind` and the `xywh` guard; a guard failure leaves it empty.  A registry
failure inside the rebuild propagates as the thrown construction error. -/
def applyBlocks (reg : BlockRegistry) (src : Option (List RawBlock))
    (cur : List PageBlock) : Except String (List PageBlock) :=
  match src with
  | none => Except.ok cur
  | some bs =>
    if AreObjectsOf RawBlock.kind bs && AreObjectsOf RawBlock.xywh bs then
      bs.mapM (PageBlockMaker reg)
    else
      Except.ok []

mutual

/-- `Page.apply` (page.ts lines 48-76): `none` embeds the `if (!i) return`
early exit; the Apply groups run in source order, then the guarded blocks
branch, then the guarded children branch (recursing into the Page
constructor for each raw child), then the date and permission groups. -/
def Page.applyRaw (reg : BlockRegistry) (p : Page) :
    Option RawPage → Except String Page
  | none => Except.ok p
  | some (RawPage.mk r kidsRaw) =>
    let c := p.core
    match applyBlocks reg r.blocks c.blocks with
    | Except.error e => Except.error e
    | Except.ok blocks =>
      match Page.applyKids reg kidsRaw p.children with
      | Except.error e => Except.error e
      | Except.ok kids =>
        Except.ok (Page.mk
          { pageID := applyField CortezaID r.pageID c.pageID
            selfID := applyField CortezaID r.selfID c.selfID
            moduleID := applyField CortezaID r.moduleID c.moduleID
            namespaceID := applyField CortezaID r.namespaceID c.namespaceID
            title := applyField coerceString r.title c.title
            handle := applyField coerceString r.handle c.handle
            description := applyField coerceString r.description c.description
            weight := applyField coerceNumber r.weight c.weight
            visible := applyField coerceBoolean r.visible c.visible
            blocks := blocks
            createdAt := applyField ISO8601Date r.createdAt c.createdAt
            updatedAt := applyField ISO8601Date r.updatedAt c.updatedAt
            deletedAt := applyField ISO8601Date r.deletedAt c.deletedAt
            canUpdatePage := applyField coerceBoolean r.canUpdatePage c.canUpdatePage
            canDeletePage := applyField coerceBoolean r.canDeletePage c.canDeletePage
            canGrant := applyField coerceBoolean r.canGrant c.canGrant }
          kids)
termination_by o => sizeOf o
decreasing_by
  all_goals simp_wf
  all_goals omega

/-- The children branch of `Page.apply` (page.ts lines 63-68): when
`i.children` is present the collection is first reset to empty, and is
rebuilt by hydrating each raw child only when every raw element passes
the `pageID` guard; a guard failure leaves it empty. -/
def Page.applyKids (reg : BlockRegistry) :
    Option (List RawPage) → Option (List Page) → Except String (Option (List Page))
  | none, cur => Except.ok cur
  | some cs, _ =>
    if AreObjectsOf (fun q => RawPage.core q |>.pageID) cs then
      match Page.buildKids reg cs with
      | Except.error e => Except.error e
      | Except.ok ps => Except.ok (some ps)
    else
      Except.ok (some [])
termination_by o _ => sizeOf o
decreasing_by
  all_goals simp_wf

/-- Hydrates each raw child through the Page constructor
(`i.children.map c => new Page c`); `new Page c` is `apply` on a
default-initialized page. -/
def Page.buildKids (reg : BlockRegistry) : List RawPage → Except String (List Page)
  | [] => Except.ok []
  | c :: cs =>
    match Page.applyRaw reg defaultPage (some c) with
    | Except.error e => Except.error e
    | Except.ok p =>
      match Page.buildKids reg cs with
      | Except.error e => Except.error e
      | Except.ok ps => Except.ok (p :: ps)
termination_by l => sizeOf l
decreasing_by
  all_goals simp_wf
  all_goals first
    | omega
    | (have h : 0 < sizeOf cs := by cases cs <;> simp_arith
       omega)

end

/-- `Page.validate` (page.ts lines 103-112): walks the blocks in stored
order and concatenates each block's own validation messages, adding none
of its own. -/
def Page.validate (p : Page) : List String :=
  p.core.blocks.foldl (fun ee b => ee ++ b.validate) []

/-! ## Messaging helper (src/corredor/helpers/messaging.ts)

The Channel class and the Messaging API client are external to the
corpus.  A Channel is modelled with the fields the helper touches
(channelID, type, members); the API client is an environment of
Except-returning functions, and every remote interaction is recorded in
an explicit trace so that the absence of remote calls is provable. -/

/-- Modelled from the spec: the Channel entity with the fields the
messaging helper reads or writes. -/
structure Channel where
  channelID : String := NoID
  typ : String := ""
  members : List String := []
deriving DecidableEq

/-- One remote Messaging API interaction. -/
inductive RemoteCall where
  | read (channelID : String)
  | create (ch : Channel)
  | update (ch : Channel)
deriving DecidableEq

/-- The Messaging API client collaborator: promise-returning CRUD calls,
each resolving to a hydrated Channel or rejecting with an error message.
The hydration step `new Channel r` of the source is absorbed into the
returned Channel. -/
structure MessagingEnv where
  channelRead : String → Except String Channel
  channelCreate : Channel → Except String Channel
  channelUpdate : Channel → Except String Channel

/-- `findChannelByID` (messaging.ts lines 103-106) for the string-typed
argument the resolver passes: `extractID(channel, 'channelID')` on an
identifier-shaped string returns the string itself (extractID lives in
shared.ts, outside the corpus, modelled from the spec), then the remote
`channelRead` outcome is returned directly.  The pair's second component
is the remote-call trace. -/
def MessagingEnv.findChannelByID (env : MessagingEnv) (s : String) :
    Except String Channel × List RemoteCall :=
  (env.channelRead s, [RemoteCall.read s])

/-- A value a resolver candidate can evaluate to after awaiting:
a string, an already-typed Channel instance, some other non-null object
(carrying at most a channelID property, itself string-typed or absent),
a non-object non-string primitive, or a null-like falsy value. -/
inductive CVal where
  | str (s : String)
  | chan (c : Channel)
  | obj (channelID : Option String)
  | boolv (b : Bool)
  | undef
deriving DecidableEq

/-- JS truthiness test embedded for the shapes above (`if (!c) continue`):
the empty string, false, and null-like values are falsy. -/
def CVal.falsy : CVal → Bool
  | .str s => s == ""
  | .boolv b => !b
  | .undef => true
  | _ => false

/-- A measure for the resolver recursion: resolving an object candidate
re-enters the resolver on its extracted channelID, which is a string or
undefined, never another object. -/
def CVal.rsize : CVal → Nat
  | .obj _ => 2
  | _ => 1

/-- A resolver candidate as passed in `args`: either a plain value or a
pending promise of one (`c = await c` unwraps the latter). -/
inductive Candidate where
  | val (v : CVal)
  | promiseOf (v : CVal)
deriving DecidableEq

/-- The value a candidate has after the `c = await c` step. -/
def Candidate.awaited : Candidate → CVal
  | .val v => v
  | .promiseOf v => v

/-- The generic resolver rejection of messaging.ts line 214. -/
def resolverErrMsg : String := "unexpected input type for channel resolver"

/-- Sum of candidate measures, for termination of the resolver. -/
def resolveMeasure (args : List Candidate) : Nat :=
  (args.map (fun a => a.awaited.rsize)).sum

/-- `resolveChannel` (messaging.ts lines 182-215): walk the candidates in
order; await each; skip falsy values; an identifier-shaped string returns
the remote lookup outcome directly; other strings and other primitives
fall through to the next candidate; a Channel instance is returned as is
with no remote call; any other object terminates the walk by re-entering
the resolver on its extracted channelID property alone; an exhausted list
rejects with the generic error.  The second component is the remote-call
trace. -/
def resolveChannel (env : MessagingEnv) (args : List Candidate) :
    Except String Channel × List RemoteCall :=
  match args with
  | [] => (Except.error resolverErrMsg, [])
  | a :: rest =>
    if (a.awaited).falsy then
      resolveChannel env rest
    else
      match h : a.awaited with
      | .str s =>
        if IsCortezaID s then env.findChannelByID s
        else resolveChannel env rest
      | .boolv _ => resolveChannel env rest
      | .undef => resolveChannel env rest
      | .chan ch => (Except.ok ch, [])
      | .obj cid =>
        resolveChannel env [Candidate.val (cid.elim CVal.undef CVal.str)]
termination_by resolveMeasure args
decreasing_by
  all_goals simp only [resolveMeasure, List.map_cons, List.sum_cons,
    List.map_nil, List.sum_nil]
  all_goals try
    (have h1 : 0 < (Candidate.awaited a).rsize := by
       cases Candidate.awaited a <;> simp [CVal.rsize]
     omega)
  rw [h]
  cases cid <;>
    simp only [Option.elim, Candidate.awaited, CVal.rsize, List.map_nil, List.sum_nil,
      List.map_cons, List.sum_cons] <;>
    omega

/-- Modelled from the spec: `isFresh` from shared.ts (not part of the
corpus) tests whether an identifier still is the unsaved sentinel. -/
def isFresh (id : String) : Bool := id == NoID || id == ""

/-- `saveChannel` (messaging.ts lines 143-151): create the channel
remotely when its identifier is fresh, update it otherwise. -/
def saveChannel (env : MessagingEnv) (ch : Channel) :
    Except String Channel × List RemoteCall :=
  if isFresh ch.channelID then
    (env.channelCreate ch, [RemoteCall.create ch])
  else
    (env.channelUpdate ch, [RemoteCall.update ch])

/-- A user argument to `directChannel`: a User object or a string with
the identifier. -/
inductive UserInput where
  | str (s : String)
  | usr (userID : String)
deriving DecidableEq

/-- Modelled from the spec: `extractID(value, 'userID')` from shared.ts
(not part of the corpus) extracts the identity field of an object, or
uses a string value as the identifier itself. -/
def extractID : UserInput → String
  | .str s => s
  | .usr id => id

/-- The rejection message of messaging.ts line 119. -/
def selfErrMsg : String := "can not send message to self"

/-- `directChannel` (messaging.ts lines 114-128): extract both user
identifiers; identical identifiers reject immediately with a descriptive
error and no remote call; otherwise a fresh group channel over the two
members is saved remotely. -/
def directChannel (env : MessagingEnv) (first second : UserInput) :
    Except String Channel × List RemoteCall :=
  let firstUserID := extractID first
  let secondUserID := extractID second
  if firstUserID = secondUserID then
    (Except.error selfErrMsg, [])
  else
    saveChannel env { channelID := NoID, typ := "group", members := [firstUserID, secondUserID] }

/-! ## Concrete instances used by witnesses and counterexamples -/

/-- A Messaging API environment whose calls all succeed. -/
def envW : MessagingEnv :=
  { channelRead := fun s => Except.ok { channelID := s }
    channelCreate := fun ch => Except.ok ch
    channelUpdate := fun ch => Except.ok ch }

/-- A Messaging API environment whose channel lookup always rejects. -/
def envErr : MessagingEnv :=
  { channelRead := fun _ => Except.error "channel lookup failed"
    channelCreate := fun ch => Except.ok ch
    channelUpdate := fun ch => Except.ok ch }

/-- A concrete already-typed channel. -/
def chanA : Channel := { channelID := "987" }

/-- A block carrying one validation message. -/
def blockE1 : PageBlock := { validationMsgs := ["first block broken"] }

/-- A block that validates clean. -/
def blockOK : PageBlock := {}

/-- A second invalid block. -/
def blockE3 : PageBlock := { validationMsgs := ["third block broken"] }

/-- A page storing the three blocks above. -/
def pageVW : Page := Page.mk { blocks := [blockE1, blockOK, blockE3] } none

/-- A registry with exactly the block kind X registered.  The registered
constructor keeps the raw geometry and payload. -/
def regX : BlockRegistry := fun k =>
  if k = "X"
  then some (fun b =>
    { kind := "X", xywh := b.xywh.getD [], options := b.payload, validationMsgs := [] })
  else none

/-- A well-formed raw block of kind X. -/
def rawBlockX : RawBlock := { kind := some "X", xywh := some [0, 0, 1, 1] }

/-- A raw block element lacking the kind discriminant. -/
def rawBlockNoKind : RawBlock := {}

/-- The raw page of the end-to-end guard example: a well-formed X block
followed by an element without the kind field. -/
def rawPageC2 : RawPage := RawPage.mk { blocks := some [rawBlockX, rawBlockNoKind] } none

/-- A freshly constructed module field (all defaults). -/
def mfW : ModuleField := {}

/-- A raw module-field update carrying only isSystem. -/
def rawSysW : RawModuleField := { isSystem := some true }

/-! ## Step lemmas for the resolver -/

/-- The resolver rejects on an exhausted candidate list. -/
theorem resolveChannel_nil (env : MessagingEnv) :
    resolveChannel env [] = (Except.error resolverErrMsg, []) := by
  simp [resolveChannel]

/-- One-step unfolding of the resolver loop body, with a non-dependent
match, proved by exhausting the candidate shapes. -/
theorem resolveChannel_cons_eq (env : MessagingEnv) (a : Candidate) (rest : List Candidate) :
    resolveChannel env (a :: rest) =
      if (a.awaited).falsy then resolveChannel env rest
      else
        match a.awaited with
        | CVal.str s =>
          if IsCortezaID s then env.findChannelByID s else resolveChannel env rest
        | CVal.boolv _ => resolveChannel env rest
        | CVal.undef => resolveChannel env rest
        | CVal.chan ch => (Except.ok ch, [])
        | CVal.obj cid => resolveChannel env [Candidate.val (cid.elim CVal.undef CVal.str)] := by
  cases a with
  | val v => cases v <;> (rw [resolveChannel]; simp [Candidate.awaited, CVal.falsy])
  | promiseOf v => cases v <;> (rw [resolveChannel]; simp [Candidate.awaited, CVal.falsy])

/-- A falsy candidate is skipped. -/
theorem resolveChannel_cons_falsy (env : MessagingEnv) (a : Candidate) (rest : List Candidate)
    (hf : (a.awaited).falsy = true) :
    resolveChannel env (a :: rest) = resolveChannel env rest := by
  rw [resolveChannel_cons_eq]
  simp [hf]

/-- A Channel-instance candidate is returned as is, with no remote call. -/
theorem resolveChannel_cons_chan (env : MessagingEnv) (a : Candidate) (rest : List Candidate)
    (ch : Channel) (ha : a.awaited = CVal.chan ch) :
    resolveChannel env (a :: rest) = (Except.ok ch, []) := by
  rw [resolveChannel_cons_eq]
  simp [ha, CVal.falsy]

/-- An object candidate re-enters the resolver on its channelID property
alone, discarding the remaining candidates. -/
theorem resolveChannel_cons_obj (env : MessagingEnv) (a : Candidate) (rest : List Candidate)
    (cid : Option String) (ha : a.awaited = CVal.obj cid) :
    resolveChannel env (a :: rest) =
      resolveChannel env [Candidate.val (cid.elim CVal.undef CVal.str)] := by
  rw [resolveChannel_cons_eq]
  simp [ha, CVal.falsy]

/-- An identifier-shaped string candidate returns the remote lookup
outcome directly. -/
theorem resolveChannel_cons_str_id (env : MessagingEnv) (a : Candidate) (rest : List Candidate)
    (s : String) (ha : a.awaited = CVal.str s) (hid : IsCortezaID s = true) :
    resolveChannel env (a :: rest) = env.findChannelByID s := by
  have hne : ¬s = "" := by
    intro he
    rw [he] at hid
    simp [IsCortezaID] at hid
  rw [resolveChannel_cons_eq]
  simp [ha, CVal.falsy, hne, hid]

/-- A primitive non-string candidate is skipped, whether truthy or falsy. -/
theorem resolveChannel_cons_boolv (env : MessagingEnv) (a : Candidate) (rest : List Candidate)
    (b : Bool) (ha : a.awaited = CVal.boolv b) :
    resolveChannel env (a :: rest) = resolveChannel env rest := by
  cases b with
  | false => exact resolveChannel_cons_falsy env a rest (by rw [ha]; rfl)
  | true =>
    rw [resolveChannel_cons_eq]
    simp [ha, CVal.falsy]

/-- A candidate that is falsy after awaiting, or a non-identifier-shaped
string, is skipped and the walk continues. -/
theorem resolveChannel_cons_skip (env : MessagingEnv) (a : Candidate) (rest : List Candidate)
    (h : (a.awaited).falsy = true ∨ ∃ s, a.awaited = CVal.str s ∧ IsCortezaID s = false) :
    resolveChannel env (a :: rest) = resolveChannel env rest := by
  rcases h with hf | ⟨s, ha, hid⟩
  · exact resolveChannel_cons_falsy env a rest hf
  · by_cases he : s = ""
    · exact resolveChannel_cons_falsy env a rest (by rw [ha, he]; rfl)
    · rw [resolveChannel_cons_eq]
      simp [ha, CVal.falsy, he, hid]

/-! ## Claims about the resolver -/

/-- C1.  Resolver first-wins ordering: when candidate A on its own
resolves to a channel (and B on its own would also resolve), resolving
the list A, B yields exactly the result of resolving A alone, remote-call
trace included, so B is never consulted and never triggers a remote
call. -/
theorem resolveChannel_first_wins (env : MessagingEnv) (A B : Candidate)
    (ch : Channel) (tr : List RemoteCall)
    (hA : resolveChannel env [A] = (Except.ok ch, tr))
    (_hB : ∃ chB trB, resolveChannel env [B] = (Except.ok chB, trB)) :
    resolveChannel env [A, B] = (Except.ok ch, tr) := by
  cases hv : A.awaited with
  | str s =>
    by_cases hid : IsCortezaID s = true
    · rw [resolveChannel_cons_str_id env A [B] s hv hid]
      rw [resolveChannel_cons_str_id env A [] s hv hid] at hA
      exact hA
    · rw [resolveChannel_cons_skip env A []
        (Or.inr ⟨s, hv, by simpa using hid⟩), resolveChannel_nil] at hA
      simp [resolverErrMsg] at hA
  | chan c =>
    rw [resolveChannel_cons_chan env A [B] c hv]
    rw [resolveChannel_cons_chan env A [] c hv] at hA
    exact hA
  | obj cid =>
    rw [resolveChannel_cons_obj env A [B] cid hv]
    rw [resolveChannel_cons_obj env A [] cid hv] at hA
    exact hA
  | boolv b =>
    rw [resolveChannel_cons_boolv env A [] b hv, resolveChannel_nil] at hA
    simp [resolverErrMsg] at hA
  | undef =>
    rw [resolveChannel_cons_falsy env A [] (by rw [hv]; rfl), resolveChannel_nil] at hA
    simp [resolverErrMsg] at hA

/-- Witness for C1: a Channel-instance first candidate wins over an
identifier-shaped second candidate that would also resolve. -/
theorem resolveChannel_first_wins_witness :
    resolveChannel envW
      [Candidate.val (CVal.chan chanA), Candidate.val (CVal.str "123")] =
      (Except.ok chanA, []) := by
  apply resolveChannel_first_wins envW (Candidate.val (CVal.chan chanA))
    (Candidate.val (CVal.str "123")) chanA []
  · rw [resolveChannel_cons_chan envW (Candidate.val (CVal.chan chanA)) [] chanA rfl]
  · refine ⟨{ channelID := "123" }, [RemoteCall.read "123"], ?_⟩
    rw [resolveChannel_cons_str_id envW (Candidate.val (CVal.str "123")) [] "123" rfl (by decide)]
    rfl

/-- C5.  Resolver exhaustion: when every candidate is falsy after
awaiting or a non-identifier-shaped string, resolution rejects with the
generic error after walking the full list, having made no remote call. -/
theorem resolveChannel_exhaustion (env : MessagingEnv) (args : List Candidate)
    (h : ∀ a ∈ args,
      (a.awaited).falsy = true ∨ ∃ s, a.awaited = CVal.str s ∧ IsCortezaID s = false) :
    resolveChannel env args = (Except.error resolverErrMsg, []) := by
  induction args with
  | nil => exact resolveChannel_nil env
  | cons a rest ih =>
    rw [resolveChannel_cons_skip env a rest (h a (by simp))]
    exact ih (fun b hb => h b (by simp [hb]))

/-- Witness for C5: a null-like candidate and a pending handle-shaped
string exhaust the resolver. -/
theorem resolveChannel_exhaustion_witness :
    resolveChannel envW
      [Candidate.val CVal.undef, Candidate.promiseOf (CVal.str "general")] =
      (Except.error resolverErrMsg, []) := by
  apply resolveChannel_exhaustion
  intro a ha
  simp only [List.mem_cons, List.not_mem_nil, or_false] at ha
  rcases ha with rfl | rfl
  · exact Or.inl rfl
  · exact Or.inr ⟨"general", rfl, by decide⟩

/-- C6.  Identifier-lookup failure propagates: a candidate that awaits to
an identifier-shaped string makes the resolver return the remote lookup
outcome directly, and a rejected lookup rejects the whole resolution with
the lookup error itself, regardless of the remaining candidates. -/
theorem resolveChannel_id_failure_propagates (env : MessagingEnv) (a : Candidate)
    (rest : List Candidate) (s : String)
    (ha : a.awaited = CVal.str s) (hid : IsCortezaID s = true) :
    resolveChannel env (a :: rest) = env.findChannelByID s ∧
    ∀ e, env.channelRead s = Except.error e →
      resolveChannel env (a :: rest) = (Except.error e, [RemoteCall.read s]) := by
  have h1 := resolveChannel_cons_str_id env a rest s ha hid
  refine ⟨h1, fun e he => ?_⟩
  rw [h1]
  simp [MessagingEnv.findChannelByID, he]

/-- Witness for C6: a failing lookup on an identifier-shaped candidate
rejects with the lookup error even though the next candidate is an
already-typed Channel. -/
theorem resolveChannel_id_failure_propagates_witness :
    resolveChannel envErr
      [Candidate.val (CVal.str "555"), Candidate.val (CVal.chan chanA)] =
      (Except.error "channel lookup failed", [RemoteCall.read "555"]) :=
  (resolveChannel_id_failure_propagates envErr (Candidate.val (CVal.str "555"))
    [Candidate.val (CVal.chan chanA)] "555" rfl (by decide)).2
    "channel lookup failed" rfl

/-- C10.  A non-null object candidate that is not a Channel instance
terminates the walk unconditionally: the resolver returns the result of
resolving only the extracted channelID property, so an absent or falsy
channelID rejects the whole call with the generic error even when a later
candidate would have resolved. -/
theorem resolveChannel_object_terminal (env : MessagingEnv) (a : Candidate)
    (rest : List Candidate) (cid : Option String)
    (ha : a.awaited = CVal.obj cid) :
    resolveChannel env (a :: rest) =
      resolveChannel env [Candidate.val (cid.elim CVal.undef CVal.str)] ∧
    ((cid = none ∨ cid = some "") →
      resolveChannel env (a :: rest) = (Except.error resolverErrMsg, [])) := by
  have h1 := resolveChannel_cons_obj env a rest cid ha
  refine ⟨h1, ?_⟩
  rintro (rfl | rfl)
  · rw [h1, resolveChannel_cons_falsy env _ [] (by rfl), resolveChannel_nil]
  · rw [h1, resolveChannel_cons_falsy env _ [] (by rfl), resolveChannel_nil]

/-- Witness for C10: an object without channelID rejects generically even
though the next candidate is an already-typed Channel. -/
theorem resolveChannel_object_terminal_witness :
    resolveChannel envW
      [Candidate.val (CVal.obj none), Candidate.val (CVal.chan chanA)] =
      (Except.error resolverErrMsg, []) :=
  (resolveChannel_object_terminal envW (Candidate.val (CVal.obj none))
    [Candidate.val (CVal.chan chanA)] none rfl).2 (Or.inl rfl)

/-- C7.  Self-reference rejection: when the identifier extracted from the
first user equals the identifier extracted from the second, directChannel
rejects with the descriptive error and performs no remote call. -/
theorem directChannel_self_reject (env : MessagingEnv) (first second : UserInput)
    (h : extractID first = extractID second) :
    directChannel env first second = (Except.error selfErrMsg, []) := by
  simp [directChannel, h]

/-- Witness for C7: a string identifier and a user object carrying the
same identifier. -/
theorem directChannel_self_reject_witness :
    directChannel envW (UserInput.str "42") (UserInput.usr "42") =
      (Except.error selfErrMsg, []) :=
  directChannel_self_reject envW (UserInput.str "42") (UserInput.usr "42") rfl

/-! ## Claims about Page.validate -/

/-- C8.  Composite validation ordering: a page whose stored blocks are
c1, c2, c3 with c2 validating clean returns exactly the messages of c1
followed by the messages of c3, in stored order, contributing none of its
own; `validate` is a pure projection and leaves the page unchanged. -/
theorem page_validate_child_order (p : Page) (c1 c2 c3 : PageBlock)
    (hb : p.core.blocks = [c1, c2, c3]) (h2 : c2.validate = []) :
    p.validate = c1.validate ++ c3.validate := by
  simp [Page.validate, hb, PageBlock.validate] at h2 ⊢
  simp [h2]

/-- Witness for C8. -/
theorem page_validate_child_order_witness :
    Page.validate pageVW = PageBlock.validate blockE1 ++ PageBlock.validate blockE3 :=
  page_validate_child_order pageVW blockE1 blockOK blockE3 rfl rfl

/-! ## Helper lemmas about the Apply engine -/

/-- An absent source field leaves the target unchanged. -/
@[simp] theorem applyField_none (coerce : α → β → β) (t : β) :
    applyField coerce none t = t := rfl

/-- A present source field is coerced over the previous value. -/
@[simp] theorem applyField_some (coerce : α → β → β) (v : α) (t : β) :
    applyField coerce (some v) t = coerce v t := rfl

/-- Re-applying the same source field is the identity whenever the
coercer ignores the previous value, as all the standard coercers do. -/
theorem applyField_reapply (coerce : α → β → β)
    (hco : ∀ v a b, coerce v a = coerce v b) (o : Option α) (t : β) :
    applyField coerce o (applyField coerce o t) = applyField coerce o t := by
  cases o with
  | none => rfl
  | some v => exact hco v (coerce v t) t

/-- The forced record-value permissions of a system field re-apply to the
same value. -/
theorem sysForce_reapply (fs fc : Option Bool) (es ec : Bool) :
    (if applyField coerceBoolean fs (applyField coerceBoolean fs es) then true
     else applyField coerceBoolean fc
       (if applyField coerceBoolean fs es then true
        else applyField coerceBoolean fc ec)) =
    (if applyField coerceBoolean fs es then true
     else applyField coerceBoolean fc ec) := by
  rcases fs with _ | bs <;> rcases fc with _ | bc <;> cases es <;> cases ec <;>
    simp [applyField, coerceBoolean]

/-- Idempotence of `Namespace.apply`. -/
theorem nsApply_idem (e : Namespace) (i : Option RawNamespace) :
    (e.applyRaw i).applyRaw i = e.applyRaw i := by
  cases i with
  | none => rfl
  | some n =>
    simp only [Namespace.applyRaw]
    rw [Namespace.mk.injEq]
    repeat' apply And.intro
    all_goals first
      | exact applyField_reapply CortezaID (fun _ _ _ => rfl) _ _
      | exact applyField_reapply coerceString (fun _ _ _ => rfl) _ _
      | exact applyField_reapply coerceNumber (fun _ _ _ => rfl) _ _
      | exact applyField_reapply coerceBoolean (fun _ _ _ => rfl) _ _
      | exact applyField_reapply ISO8601Date (fun _ _ _ => rfl) _ _
      | (cases hm : n.meta <;> simp [IsOf, hm])

/-- Idempotence of `ModuleField.apply`. -/
theorem mfApply_idem (e : ModuleField) (i : Option RawModuleField) :
    (e.applyRaw i).applyRaw i = e.applyRaw i := by
  cases i with
  | none => rfl
  | some f =>
    simp only [ModuleField.applyRaw]
    rw [ModuleField.mk.injEq]
    refine ⟨?_, ?_, ?_, ?_, ?_, ?_, ?_, ?_, ?_, ?_, ?_, ?_, ?_⟩
    · exact applyField_reapply CortezaID (fun _ _ _ => rfl) _ _
    · exact applyField_reapply coerceString (fun _ _ _ => rfl) _ _
    · cases hk : f.kind <;> simp [IsOf, hk, applyField]
    · exact applyField_reapply coerceString (fun _ _ _ => rfl) _ _
    · cases hd : f.defaultValue with
      | none => simp [hd]
      | some v => by_cases ht : v.truthy <;> simp [hd, ht]
    · exact applyField_reapply coerceNumber (fun _ _ _ => rfl) _ _
    · exact applyField_reapply coerceBoolean (fun _ _ _ => rfl) _ _
    · exact applyField_reapply coerceBoolean (fun _ _ _ => rfl) _ _
    · exact applyField_reapply coerceBoolean (fun _ _ _ => rfl) _ _
    · exact applyField_reapply coerceBoolean (fun _ _ _ => rfl) _ _
    · cases ho : f.options <;> simp [IsOf, ho]
    · exact sysForce_reapply f.isSystem f.canUpdateRecordValue e.isSystem e.canUpdateRecordValue
    · exact sysForce_reapply f.isSystem f.canReadRecordValue e.isSystem e.canReadRecordValue

/-! ## Helper lemmas about Page hydration -/

/-- A present blocks array is rebuilt from the raw input alone; the
previous collection value is irrelevant. -/
theorem applyBlocks_indep (reg : BlockRegistry) (bs : List RawBlock)
    (cur cur2 : List PageBlock) :
    applyBlocks reg (some bs) cur = applyBlocks reg (some bs) cur2 := rfl

/-- An absent children array leaves the current children. -/
theorem applyKids_none (reg : BlockRegistry) (cur : Option (List Page)) :
    Page.applyKids reg none cur = Except.ok cur := by
  simp [Page.applyKids]

/-- A present children array is rebuilt from the raw input alone; the
previous collection value is irrelevant. -/
theorem applyKids_indep (reg : BlockRegistry) (cs : List RawPage)
    (cur cur2 : Option (List Page)) :
    Page.applyKids reg (some cs) cur = Page.applyKids reg (some cs) cur2 := by
  simp [Page.applyKids]

/-- An absent raw input leaves the page unchanged. -/
theorem Page.applyRaw_none (reg : BlockRegistry) (p : Page) :
    Page.applyRaw reg p none = Except.ok p := by
  simp [Page.applyRaw]

/-- Idempotence of `Page.apply`, in exception-aware form: re-applying the
same raw input to a successfully hydrated page reproduces it, and a
failing hydration fails identically. -/
theorem pageApply_idem (reg : BlockRegistry) (p : Page) (i : Option RawPage) :
    (Page.applyRaw reg p i).bind (fun q => Page.applyRaw reg q i) = Page.applyRaw reg p i := by
  cases i with
  | none =>
    simp only [Page.applyRaw_none]
    rfl
  | some ir =>
    obtain ⟨r, kidsRaw⟩ := ir
    simp only [Page.applyRaw]
    cases hb : applyBlocks reg r.blocks p.core.blocks with
    | error e => simp [hb, Except.bind]
    | ok B =>
      cases hk : Page.applyKids reg kidsRaw p.children with
      | error e => simp [hb, hk, Except.bind]
      | ok K =>
        have hb2 : applyBlocks reg r.blocks B = Except.ok B := by
          cases hrb : r.blocks with
          | none => rfl
          | some bs =>
            rw [hrb] at hb
            exact (applyBlocks_indep reg bs B p.core.blocks).trans hb
        have hk2 : Page.applyKids reg kidsRaw K = Except.ok K := by
          cases hrk : kidsRaw with
          | none => exact applyKids_none reg K
          | some cs =>
            rw [hrk] at hk
            exact (applyKids_indep reg cs K p.children).trans hk
        simp only [hb, hk, Except.bind, Page.core, Page.children, hb2, hk2]
        rw [Except.ok.injEq, Page.mk.injEq]
        refine ⟨?_, rfl⟩
        rw [PageCore.mk.injEq]
        refine ⟨?_, ?_, ?_, ?_, ?_, ?_, ?_, ?_, ?_, rfl, ?_, ?_, ?_, ?_, ?_, ?_⟩
        all_goals first
          | exact applyField_reapply CortezaID (fun _ _ _ => rfl) _ _
          | exact applyField_reapply coerceString (fun _ _ _ => rfl) _ _
          | exact applyField_reapply coerceNumber (fun _ _ _ => rfl) _ _
          | exact applyField_reapply coerceBoolean (fun _ _ _ => rfl) _ _
          | exact applyField_reapply ISO8601Date (fun _ _ _ => rfl) _ _

/-! ## Claim C9 -/

/-- C9.  Apply idempotence: for each of Namespace, ModuleField and Page,
applying the same raw object twice in succession yields the same entity
as applying it once (for Page, whose hydration can fail on an
unregistered block kind, in Except-bind form: a failure reproduces the
same failure). -/
theorem apply_idempotent :
    (∀ (e : Namespace) (i : Option RawNamespace),
      (e.applyRaw i).applyRaw i = e.applyRaw i) ∧
    (∀ (e : ModuleField) (i : Option RawModuleField),
      (e.applyRaw i).applyRaw i = e.applyRaw i) ∧
    (∀ (reg : BlockRegistry) (p : Page) (i : Option RawPage),
      (Page.applyRaw reg p i).bind (fun q => Page.applyRaw reg q i) = Page.applyRaw reg p i) :=
  ⟨nsApply_idem, mfApply_idem, pageApply_idem⟩

/-! ## Claim C4 -/

/-- Counterexample to C4 as stated: applying the raw object carrying only
isSystem (so canUpdateRecordValue is absent from it) to a fresh module
field flips canUpdateRecordValue from false to true. -/
theorem apply_partial_update_cex :
    rawSysW.canUpdateRecordValue = none ∧
    mfW.canUpdateRecordValue = false ∧
    (mfW.applyRaw (some rawSysW)).canUpdateRecordValue = true :=
  ⟨rfl, rfl, rfl⟩

/-- C4, amended.  Partial updates leave absent fields unchanged for every
field of Namespace and Page, and for every field of ModuleField except
the two record-value permissions: those are forced to true whenever the
field's isSystem flag is true after the update, and behave frame-like
only when it is false. -/
theorem apply_partial_update_amended :
    (∀ (e : Namespace) (n : RawNamespace),
      (n.namespaceID = none → (e.applyRaw (some n)).namespaceID = e.namespaceID) ∧
      (n.name = none → (e.applyRaw (some n)).name = e.name) ∧
      (n.slug = none → (e.applyRaw (some n)).slug = e.slug) ∧
      (n.enabled = none → (e.applyRaw (some n)).enabled = e.enabled) ∧
      (n.meta = none → (e.applyRaw (some n)).meta = e.meta) ∧
      (n.createdAt = none → (e.applyRaw (some n)).createdAt = e.createdAt) ∧
      (n.updatedAt = none → (e.applyRaw (some n)).updatedAt = e.updatedAt) ∧
      (n.deletedAt = none → (e.applyRaw (some n)).deletedAt = e.deletedAt) ∧
      (n.canCreateChart = none → (e.applyRaw (some n)).canCreateChart = e.canCreateChart) ∧
      (n.canCreateModule = none → (e.applyRaw (some n)).canCreateModule = e.canCreateModule) ∧
      (n.canCreatePage = none → (e.applyRaw (some n)).canCreatePage = e.canCreatePage) ∧
      (n.canDeleteNamespace = none →
        (e.applyRaw (some n)).canDeleteNamespace = e.canDeleteNamespace) ∧
      (n.canUpdateNamespace = none →
        (e.applyRaw (some n)).canUpdateNamespace = e.canUpdateNamespace) ∧
      (n.canManageNamespace = none →
        (e.applyRaw (some n)).canManageNamespace = e.canManageNamespace) ∧
      (n.canGrant = none → (e.applyRaw (some n)).canGrant = e.canGrant)) ∧
    (∀ (reg : BlockRegistry) (p : Page) (r : RawPageCore)
        (kidsRaw : Option (List RawPage)) (q : Page),
      Page.applyRaw reg p (some (RawPage.mk r kidsRaw)) = Except.ok q →
      (r.pageID = none → (Page.core q).pageID = (Page.core p).pageID) ∧
      (r.selfID = none → (Page.core q).selfID = (Page.core p).selfID) ∧
      (r.moduleID = none → (Page.core q).moduleID = (Page.core p).moduleID) ∧
      (r.namespaceID = none → (Page.core q).namespaceID = (Page.core p).namespaceID) ∧
      (r.title = none → (Page.core q).title = (Page.core p).title) ∧
      (r.handle = none → (Page.core q).handle = (Page.core p).handle) ∧
      (r.description = none → (Page.core q).description = (Page.core p).description) ∧
      (r.weight = none → (Page.core q).weight = (Page.core p).weight) ∧
      (r.visible = none → (Page.core q).visible = (Page.core p).visible) ∧
      (r.blocks = none → (Page.core q).blocks = (Page.core p).blocks) ∧
      (r.createdAt = none → (Page.core q).createdAt = (Page.core p).createdAt) ∧
      (r.updatedAt = none → (Page.core q).updatedAt = (Page.core p).updatedAt) ∧
      (r.deletedAt = none → (Page.core q).deletedAt = (Page.core p).deletedAt) ∧
      (r.canUpdatePage = none → (Page.core q).canUpdatePage = (Page.core p).canUpdatePage) ∧
      (r.canDeletePage = none → (Page.core q).canDeletePage = (Page.core p).canDeletePage) ∧
      (r.canGrant = none → (Page.core q).canGrant = (Page.core p).canGrant) ∧
      (kidsRaw = none → Page.children q = Page.children p)) ∧
    (∀ (e : ModuleField) (f : RawModuleField),
      (f.fieldID = none → (e.applyRaw (some f)).fieldID = e.fieldID) ∧
      (f.name = none → (e.applyRaw (some f)).name = e.name) ∧
      (f.kind = none → (e.applyRaw (some f)).kind = e.kind) ∧
      (f.label = none → (e.applyRaw (some f)).label = e.label) ∧
      (f.defaultValue = none → (e.applyRaw (some f)).defaultValue = e.defaultValue) ∧
      (f.maxLength = none → (e.applyRaw (some f)).maxLength = e.maxLength) ∧
      (f.isRequired = none → (e.applyRaw (some f)).isRequired = e.isRequired) ∧
      (f.isPrivate = none → (e.applyRaw (some f)).isPrivate = e.isPrivate) ∧
      (f.isMulti = none → (e.applyRaw (some f)).isMulti = e.isMulti) ∧
      (f.isSystem = none → (e.applyRaw (some f)).isSystem = e.isSystem) ∧
      (f.options = none → (e.applyRaw (some f)).options = e.options) ∧
      ((e.applyRaw (some f)).isSystem = true →
        (e.applyRaw (some f)).canUpdateRecordValue = true ∧
        (e.applyRaw (some f)).canReadRecordValue = true) ∧
      ((e.applyRaw (some f)).isSystem = false →
        (f.canUpdateRecordValue = none →
          (e.applyRaw (some f)).canUpdateRecordValue = e.canUpdateRecordValue) ∧
        (f.canReadRecordValue = none →
          (e.applyRaw (some f)).canReadRecordValue = e.canReadRecordValue))) := by
  refine ⟨?_, ?_, ?_⟩
  · intro e n
    refine ⟨?_, ?_, ?_, ?_, ?_, ?_, ?_, ?_, ?_, ?_, ?_, ?_, ?_, ?_, ?_⟩ <;>
      (intro hx; simp [Namespace.applyRaw, IsOf, hx])
  · intro reg p r kidsRaw q h
    simp only [Page.applyRaw] at h
    cases hb : applyBlocks reg r.blocks p.core.blocks with
    | error err => rw [hb] at h; simp at h
    | ok B =>
      rw [hb] at h
      cases hk : Page.applyKids reg kidsRaw p.children with
      | error err => rw [hk] at h; simp at h
      | ok K =>
        rw [hk] at h
        simp only [Except.ok.injEq] at h
        subst h
        refine ⟨?_, ?_, ?_, ?_, ?_, ?_, ?_, ?_, ?_, ?gblocks, ?_, ?_, ?_, ?_, ?_, ?_, ?gkids⟩
        case gblocks =>
          intro hx
          rw [hx] at hb
          have hcur : p.core.blocks = B := by simpa [applyBlocks] using hb
          simp only [Page.core] at hcur ⊢
          simp [hcur]
        case gkids =>
          intro hx
          rw [hx, applyKids_none] at hk
          have hkk : p.children = K := by simpa using hk
          simp only [Page.children] at hkk ⊢
          simp [hkk]
        all_goals (intro hx; simp [Page.core, hx])
  · intro e f
    refine ⟨?_, ?_, ?_, ?_, ?_, ?_, ?_, ?_, ?_, ?_, ?_, ?_, ?_⟩
    · intro hx; simp [ModuleField.applyRaw, hx]
    · intro hx; simp [ModuleField.applyRaw, hx]
    · intro hx; simp [ModuleField.applyRaw, IsOf, hx]
    · intro hx; simp [ModuleField.applyRaw, hx]
    · intro hx; simp [ModuleField.applyRaw, hx]
    · intro hx; simp [ModuleField.applyRaw, hx]
    · intro hx; simp [ModuleField.applyRaw, hx]
    · intro hx; simp [ModuleField.applyRaw, hx]
    · intro hx; simp [ModuleField.applyRaw, hx]
    · intro hx; simp [ModuleField.applyRaw, hx]
    · intro hx; simp [ModuleField.applyRaw, IsOf, hx]
    · intro hs
      simp only [ModuleField.applyRaw] at hs ⊢
      simp [hs]
    · intro hs
      simp only [ModuleField.applyRaw] at hs ⊢
      constructor <;> (intro hx; simp [hs, hx])

/-- Witness for the amended C4: one absent-field component per entity. -/
theorem apply_partial_update_amended_witness :
    (Namespace.applyRaw {} (some { name := some "renamed" })).slug = ({} : Namespace).slug ∧
    (ModuleField.applyRaw mfW (some rawSysW)).label = mfW.label := by
  constructor
  · exact (apply_partial_update_amended.1 {} { name := some "renamed" }).2.2.1 rfl
  · exact (apply_partial_update_amended.2.2 mfW rawSysW).2.2.2.1 rfl

/-! ## Claim C3 -/

/-- The kind guard over a blocks array fails when one element lacks the
discriminant. -/
theorem blocksGuard_false (bs : List RawBlock) (hex : ∃ b ∈ bs, b.kind = none) :
    AreObjectsOf RawBlock.kind bs = false := by
  rcases hex with ⟨b, hb, hk⟩
  simp only [AreObjectsOf, List.all_eq_false]
  exact ⟨b, hb, by simp [IsOf, hk]⟩

/-- The pageID guard over a children array fails when one element lacks
the discriminant. -/
theorem kidsGuard_false (cs : List RawPage) (hex : ∃ c ∈ cs, (RawPage.core c).pageID = none) :
    AreObjectsOf (fun q => RawPage.core q |>.pageID) cs = false := by
  rcases hex with ⟨c, hc, hk⟩
  simp only [AreObjectsOf, List.all_eq_false]
  exact ⟨c, hc, by simp [IsOf, hk]⟩

/-- C3.  Guard-drop: a present blocks (or children) array in which some
element lacks the required discriminant leaves the corresponding
collection as the empty default — never partially populated with the
well-formed elements — and the guarded hydration raises no error (the
collection branches return ok; on a whole Page.apply that returns ok, the
collection of a guarded-out array is empty). -/
theorem page_guard_drop :
    (∀ (reg : BlockRegistry) (bs : List RawBlock) (cur : List PageBlock),
      (∃ b ∈ bs, b.kind = none) →
      applyBlocks reg (some bs) cur = Except.ok []) ∧
    (∀ (reg : BlockRegistry) (cs : List RawPage) (cur : Option (List Page)),
      (∃ c ∈ cs, (RawPage.core c).pageID = none) →
      Page.applyKids reg (some cs) cur = Except.ok (some [])) ∧
    (∀ (reg : BlockRegistry) (p : Page) (r : RawPageCore)
        (kidsRaw : Option (List RawPage)) (bs : List RawBlock) (q : Page),
      r.blocks = some bs → (∃ b ∈ bs, b.kind = none) →
      Page.applyRaw reg p (some (RawPage.mk r kidsRaw)) = Except.ok q →
      (Page.core q).blocks = []) ∧
    (∀ (reg : BlockRegistry) (p : Page) (r : RawPageCore)
        (cs : List RawPage) (q : Page),
      (∃ c ∈ cs, (RawPage.core c).pageID = none) →
      Page.applyRaw reg p (some (RawPage.mk r (some cs))) = Except.ok q →
      Page.children q = some []) := by
  have hblocks : ∀ (reg : BlockRegistry) (bs : List RawBlock) (cur : List PageBlock),
      (∃ b ∈ bs, b.kind = none) → applyBlocks reg (some bs) cur = Except.ok [] := by
    intro reg bs cur hex
    simp [applyBlocks, blocksGuard_false bs hex]
  have hkidsl : ∀ (reg : BlockRegistry) (cs : List RawPage) (cur : Option (List Page)),
      (∃ c ∈ cs, (RawPage.core c).pageID = none) →
      Page.applyKids reg (some cs) cur = Except.ok (some []) := by
    intro reg cs cur hex
    simp [Page.applyKids, kidsGuard_false cs hex]
  refine ⟨hblocks, hkidsl, ?_, ?_⟩
  · intro reg p r kidsRaw bs q hrb hex h
    simp only [Page.applyRaw] at h
    rw [hrb, hblocks reg bs p.core.blocks hex] at h
    cases hk : Page.applyKids reg kidsRaw p.children with
    | error err => rw [hk] at h; simp at h
    | ok K =>
      rw [hk] at h
      simp only [Except.ok.injEq] at h
      subst h
      simp [Page.core]
  · intro reg p r cs q hex h
    simp only [Page.applyRaw] at h
    rw [hkidsl reg cs p.children hex] at h
    cases hb : applyBlocks reg r.blocks p.core.blocks with
    | error err => rw [hb] at h; simp at h
    | ok B =>
      rw [hb] at h
      simp only [Except.ok.injEq] at h
      subst h
      simp [Page.children]

/-- Witness for C3: a one-element blocks array without kind and a
one-element children array without pageID, both against non-empty current
collections. -/
theorem page_guard_drop_witness :
    applyBlocks regX (some [rawBlockNoKind]) [blockE1] = Except.ok [] ∧
    Page.applyKids regX (some [RawPage.mk {} none]) (some [pageVW]) = Except.ok (some []) :=
  ⟨page_guard_drop.1 regX [rawBlockNoKind] [blockE1] ⟨rawBlockNoKind, by simp, rfl⟩,
   page_guard_drop.2.1 regX [RawPage.mk {} none] (some [pageVW])
     ⟨RawPage.mk {} none, by simp, rfl⟩⟩

/-! ## Claim C2 -/

/-- Evaluation of the end-to-end guard example: hydrating a fresh page,
against a registry with kind X registered, from a raw object whose blocks
array holds a well-formed X block and an element without kind, yields the
default page again: the whole blocks array is dropped. -/
theorem rawPageC2_eval :
    Page.applyRaw regX defaultPage (some rawPageC2) = Except.ok defaultPage := by
  simp only [rawPageC2, Page.applyRaw]
  have hb : applyBlocks regX (some [rawBlockX, rawBlockNoKind])
      (Page.core defaultPage).blocks = Except.ok [] := by
    simp [applyBlocks, AreObjectsOf, IsOf, rawBlockNoKind]
  rw [hb, applyKids_none]
  simp [defaultPage, Page.core, Page.children]

/-- Counterexample to C2 as stated: the hydrated page of the example
carries zero constructed blocks, not exactly one — the guard drops the
entire array, well-formed first element included. -/
theorem page_block_example_cex :
    (Page.applyRaw regX defaultPage (some rawPageC2)).map
        (fun q => List.length (Page.core q).blocks) = Except.ok 0 ∧
    (Except.ok 0 : Except String Nat) ≠ Except.ok 1 := by
  constructor
  · rw [rawPageC2_eval]
    simp [defaultPage, Page.core, Except.map]
  · simp

/-- C2, amended.  Hydrating a page from a raw object with blocks kind X
(registered) followed by an element lacking the kind field yields a page
whose blocks collection is empty: the second raw element fails the guard
and the guard drops the whole array, not just the malformed element. -/
theorem page_block_example_amended :
    (Page.applyRaw regX defaultPage (some rawPageC2)).map
        (fun q => (Page.core q).blocks) = Except.ok [] := by
  rw [rawPageC2_eval]
  simp [defaultPage, Page.core, Except.map]

end Corteza
